import Mathlib

/-!
Shallow embedding of `src/web/src/model-details-page.tsx` (the `valor` web
page that lists evaluation settings for a named model).

The file has two parts:

* the static column schema (`columns`) and the pure rendering function
  (`ModelDetailsPage`), translated directly from the TSX source;
* a small-step operational model of the component's lifetime
  (`ComponentState`, `Event`, `step`, `run`): route-parameter changes fire
  the `useEffect` fetch, and each in-flight fetch later resolves with a
  response body or rejects.  The fetch handler
  `axios.get(url).then((response) => setAllEvalSettings(response.data))`
  is the only writer of the view state, and there is no `.catch`.

JavaScript response bodies relevant here are modelled by `JSVal`
(an array of rows, `null`, or `undefined`), with JS truthiness: any
array — including the empty one — is truthy, `null`/`undefined` are falsy.
-/

/-- One row of the grid; the `EvaluationSetting` shape the page consumes
(fields as used by the column schema and the link cell). -/
structure EvaluationSetting where
  id : Nat
  dataset_name : String
  model_pred_task_type : String
  dataset_gt_task_type : String
  min_area : Int
  max_area : Int
deriving DecidableEq, Repr

/-- A JavaScript value stored in the `allEvalSettings` view state:
the parsed response body, which the page expects to be an array but
never validates. -/
inductive JSVal where
  | null
  | undefined
  | arr (xs : List EvaluationSetting)
deriving DecidableEq, Repr

/-- JS truthiness of a `JSVal`: objects (arrays) are truthy, `null` and
`undefined` are falsy.  `if (!allEvalSettings) return null` branches on
this. -/
def truthy : JSVal → Bool
  | .null => false
  | .undefined => false
  | .arr _ => true

/-- The row list a `JSVal` provides when handed to the grid. -/
def asRows : JSVal → List EvaluationSetting
  | .arr xs => xs
  | _ => []

/-- What a rendered grid cell shows: plain text, or a hyperlink with a
target and a label. -/
inductive CellContent where
  | text (s : String)
  | link (href : String) (label : String)
deriving DecidableEq, Repr

/-- A column definition as passed to the MUI `DataGrid`.  Absent `width`
means the widget's default width; `sortable`, `filterable` and `hideable`
default to `true` in the widget, and `renderCell` overrides the default
plain-text rendering of the row's `field`. -/
structure GridColDef where
  field : String
  headerName : String
  width : Option Nat := none
  renderCell : Option (EvaluationSetting → CellContent) := none
  sortable : Bool := true
  filterable : Bool := true
  hideable : Bool := true

def taskTypeWidth : Nat := 250
def areaWidth : Nat := 175

/-- The static column schema of the page, translated from the TSX source:
five data columns plus the synthesized "view metrics" link column. -/
def columns : List GridColDef :=
  [ { field := "dataset_name", headerName := "Dataset" },
    { field := "model_pred_task_type", headerName := "Model prediction type",
      width := some taskTypeWidth },
    { field := "dataset_gt_task_type", headerName := "Dataset annotation type",
      width := some taskTypeWidth },
    { field := "min_area", headerName := "Min. area of objects",
      width := some areaWidth },
    { field := "max_area", headerName := "Max. area of objects",
      width := some areaWidth },
    { field := "", headerName := "",
      renderCell := some (fun params =>
        CellContent.link ("evaluation-settings/" ++ toString params.id)
          "view metrics"),
      sortable := false, filterable := false, hideable := false } ]

/-- The grid widget's default cell rendering: the row's value at the
column's `field`, as text. -/
def fieldText (field : String) (row : EvaluationSetting) : String :=
  if field = "dataset_name" then row.dataset_name
  else if field = "model_pred_task_type" then row.model_pred_task_type
  else if field = "dataset_gt_task_type" then row.dataset_gt_task_type
  else if field = "min_area" then toString row.min_area
  else if field = "max_area" then toString row.max_area
  else ""

/-- The content a column renders for a row: the custom `renderCell` when
one is declared, otherwise the default plain text of the field value. -/
def cellFor (col : GridColDef) (row : EvaluationSetting) : CellContent :=
  match col.renderCell with
  | some f => f row
  | none => CellContent.text (fieldText col.field row)

/-- `initialState.pagination.paginationModel` prop of the grid. -/
structure GridPaginationModel where
  pageSize : Nat
deriving DecidableEq, Repr

/-- `initialState.pagination` prop of the grid. -/
structure GridPaginationInitialState where
  paginationModel : GridPaginationModel
deriving DecidableEq, Repr

/-- `initialState` prop of the grid. -/
structure GridInitialState where
  pagination : GridPaginationInitialState
deriving DecidableEq, Repr

/-- The props the page passes to the `DataGrid` widget. -/
structure DataGridProps where
  rows : List EvaluationSetting
  columns : List GridColDef
  initialState : GridInitialState
  pageSizeOptions : List Nat
  disableRowSelectionOnClick : Bool

/-- The `DataGrid` element built by the page for a given row list,
exactly the props in the TSX source. -/
def dataGridProps (rows : List EvaluationSetting) : DataGridProps :=
  { rows := rows
    columns := columns
    initialState := ⟨⟨⟨5⟩⟩⟩
    pageSizeOptions := [5]
    disableRowSelectionOnClick := true }

/-- What the component returns from a render: `null`, or the wrapped page
with its `h2` heading, the `h3` subheading and the data grid. -/
inductive Rendered where
  | nothing
  | page (heading : String) (subheading : String) (grid : DataGridProps)

/-- The heading shown by a render, if any. -/
def Rendered.heading : Rendered → Option String
  | .nothing => none
  | .page h _ _ => some h

/-- The render function of the component, translated from the TSX body:
`if (!allEvalSettings) return null;` then the wrapped page with
`<Typography variant="h2">{name}</Typography>`, `<h3>Evaluations</h3>`
and the grid over the stored rows. -/
def ModelDetailsPage (name : String) (allEvalSettings : JSVal) : Rendered :=
  if truthy allEvalSettings then
    Rendered.page name "Evaluations" (dataGridProps (asRows allEvalSettings))
  else
    Rendered.nothing

/-- An outbound HTTP request as issued by `axios.get(url)`. -/
structure HttpRequest where
  method : String
  url : String
  body : Option String
  queryParams : List (String × String)
deriving DecidableEq, Repr

/-- `axios.get(url)`: a GET request with no body and no query
parameters. -/
def axiosGet (url : String) : HttpRequest :=
  { method := "GET", url := url, body := none, queryParams := [] }

/-- The fetch URL built by the component:
`${process.env.REACT_APP_BACKEND_URL}/models/${name}/evaluation-settings`. -/
def mkUrl (backendUrl name : String) : String :=
  backendUrl ++ "/models/" ++ name ++ "/evaluation-settings"

/-- The component's state over its lifetime: the environment's backend
base URL, the current route `name` parameter, the `allEvalSettings` view
state, every request issued so far (oldest first), the indices of
requests still in flight, and the URL the `useEffect` last ran for
(its `[url]` dependency array). -/
structure ComponentState where
  backendUrl : String
  name : String
  allEvalSettings : JSVal
  requests : List HttpRequest
  pending : List Nat
  lastEffectUrl : Option String
deriving DecidableEq, Repr

/-- Mounting the component with a route `name`: view state starts as the
empty array, and the first render's effect issues one fetch. -/
def mount (backendUrl name : String) : ComponentState :=
  { backendUrl := backendUrl
    name := name
    allEvalSettings := JSVal.arr []
    requests := [axiosGet (mkUrl backendUrl name)]
    pending := [0]
    lastEffectUrl := some (mkUrl backendUrl name) }

/-- Events in the component's lifetime: the route parameter takes a new
value (a re-render), or the fetch issued as request `i` settles —
resolving with a response body, or rejecting (network error or non-2xx
status, which `axios` turns into a promise rejection). -/
inductive Event where
  | setName (n : String)
  | resolve (i : Nat) (data : JSVal)
  | reject (i : Nat)
deriving DecidableEq, Repr

/-- Whether an event is a successful fetch resolution. -/
def Event.isResolve : Event → Bool
  | .resolve _ _ => true
  | _ => false

/-- One step of the component.  A route change re-renders; the effect
re-runs exactly when its `[url]` dependency changed, issuing one new
`axios.get`.  A resolving fetch runs the `.then` handler, which calls
`setAllEvalSettings(response.data)`.  A rejecting fetch runs no handler
at all (there is no `.catch`), so only the in-flight bookkeeping
changes. -/
def step (s : ComponentState) : Event → ComponentState
  | .setName n =>
    let u := mkUrl s.backendUrl n
    if s.lastEffectUrl = some u then
      { s with name := n }
    else
      { s with name := n
               requests := s.requests ++ [axiosGet u]
               pending := s.pending ++ [s.requests.length]
               lastEffectUrl := some u }
  | .resolve i data =>
    if i ∈ s.pending then
      { s with allEvalSettings := data, pending := s.pending.erase i }
    else s
  | .reject i =>
    if i ∈ s.pending then
      { s with pending := s.pending.erase i }
    else s

/-- Run a list of events from a state. -/
def run (s : ComponentState) : List Event → ComponentState
  | [] => s
  | e :: es => run (step s e) es

/-- The sequence of response bodies written to the view state along a
trace: the data of each resolve event that hits an in-flight request,
in order. -/
def resolvedWrites (s : ComponentState) : List Event → List JSVal
  | [] => []
  | e :: es =>
    (match e with
     | .resolve i d => if i ∈ s.pending then [d] else []
     | _ => []) ++ resolvedWrites (step s e) es

/-- What the component renders in a given state. -/
def renderState (s : ComponentState) : Rendered :=
  ModelDetailsPage s.name s.allEvalSettings

/-- C4 counterexample: it is false that exactly two columns are given
fixed pixel widths — in the schema, four columns carry a `width`. -/
theorem fixed_width_columns_count_not_two :
    ¬ ((columns.filter (fun c => c.width.isSome)).length = 2) := by
  decide

/-- C4 (amended): exactly four columns are given fixed pixel widths —
two at 250 pixels and two at 175 pixels — and the other two columns
(the dataset-name column and the link column) use the widget's default
width. -/
theorem fixed_width_columns_count :
    (columns.filter (fun c => c.width.isSome)).length = 4
    ∧ columns.map (fun c => c.width)
        = [none, some 250, some 250, some 175, some 175, none] := by
  decide

/-- C5: every row renders five plain-text data cells (dataset_name,
model_pred_task_type, dataset_gt_task_type, min_area, max_area) plus one
link cell labelled "view metrics" targeting the relative URL
`evaluation-settings/{row.id}`. -/
theorem row_renders_five_text_cells_and_link (row : EvaluationSetting) :
    columns.map (fun c => cellFor c row)
      = [CellContent.text row.dataset_name,
         CellContent.text row.model_pred_task_type,
         CellContent.text row.dataset_gt_task_type,
         CellContent.text (toString row.min_area),
         CellContent.text (toString row.max_area),
         CellContent.link ("evaluation-settings/" ++ toString row.id)
           "view metrics"] := by
  rfl

/-- C6: the synthesized link column (the sixth column) is declared
non-sortable, non-filterable and non-hideable; the sortable, filterable
and hideable columns of the static schema are exactly the five data
columns, so no interaction on them involves the link column. -/
theorem link_column_static_flags :
    (columns.get ⟨5, by decide⟩).sortable = false
    ∧ (columns.get ⟨5, by decide⟩).filterable = false
    ∧ (columns.get ⟨5, by decide⟩).hideable = false
    ∧ (columns.filter (fun c => c.sortable)).map (fun c => c.field)
        = ["dataset_name", "model_pred_task_type", "dataset_gt_task_type",
           "min_area", "max_area"]
    ∧ (columns.filter (fun c => c.filterable)).map (fun c => c.field)
        = ["dataset_name", "model_pred_task_type", "dataset_gt_task_type",
           "min_area", "max_area"]
    ∧ (columns.filter (fun c => c.hideable)).map (fun c => c.field)
        = ["dataset_name", "model_pred_task_type", "dataset_gt_task_type",
           "min_area", "max_area"] := by
  decide

/-- C7: for every row list, the grid is configured with an initial page
size of 5 and the page-size options offered are exactly the
one-element list [5]. -/
theorem pagination_fixed_at_five (rows : List EvaluationSetting) :
    (dataGridProps rows).initialState.pagination.paginationModel.pageSize = 5
    ∧ (dataGridProps rows).pageSizeOptions = [5] :=
  ⟨rfl, rfl⟩

/-- C9: a falsy stored body (null or undefined) makes the component
render nothing at all, while any truthy stored body — including the
empty array — renders the full page with the grid. -/
theorem falsy_body_renders_null (name : String) (v : JSVal) :
    (truthy v = false → ModelDetailsPage name v = Rendered.nothing)
    ∧ (truthy v = true →
        ModelDetailsPage name v
          = Rendered.page name "Evaluations" (dataGridProps (asRows v)))
    ∧ ModelDetailsPage name (JSVal.arr [])
        = Rendered.page name "Evaluations" (dataGridProps []) := by
  refine ⟨fun h => ?_, fun h => ?_, rfl⟩ <;> simp [ModelDetailsPage, h]

/-- C9 witness: with stored body `null` the component renders nothing;
with the empty array it renders the full page. -/
theorem falsy_body_renders_null_witness :
    ModelDetailsPage "resnet50" JSVal.null = Rendered.nothing
    ∧ ModelDetailsPage "resnet50" (JSVal.arr [])
        = Rendered.page "resnet50" "Evaluations" (dataGridProps []) :=
  ⟨(falsy_body_renders_null "resnet50" JSVal.null).1 rfl,
   (falsy_body_renders_null "resnet50" (JSVal.arr [])).2.2⟩

/-- C10: for every value of the route name parameter, the rendered page
heading is exactly that raw string, untransformed. -/
theorem heading_is_raw_name (name : String) (xs : List EvaluationSetting) :
    (ModelDetailsPage name (JSVal.arr xs)).heading = some name :=
  rfl

lemma step_setName_allEvalSettings (s : ComponentState) (n : String) :
    (step s (.setName n)).allEvalSettings = s.allEvalSettings := by
  simp only [step]
  split <;> rfl

lemma step_reject_allEvalSettings (s : ComponentState) (i : Nat) :
    (step s (.reject i)).allEvalSettings = s.allEvalSettings := by
  simp only [step]
  split <;> rfl

lemma getD_getLast?_cons {α : Type} (a x : α) (l : List α) :
    ((a :: l).getLast?).getD x = (l.getLast?).getD a := by
  cases l with
  | nil => rfl
  | cons b bs =>
    rw [List.getLast?_cons_cons]
    obtain ⟨y, hy⟩ := Option.isSome_iff_exists.mp
      (List.getLast?_isSome.mpr (List.cons_ne_nil b bs))
    rw [hy]
    rfl

/-- The view state after any trace is the last response body written by
a resolving fetch, or the starting view state when none resolved. -/
lemma run_allEvalSettings (tr : List Event) : ∀ s : ComponentState,
    (run s tr).allEvalSettings
      = ((resolvedWrites s tr).getLast?).getD s.allEvalSettings := by
  induction tr with
  | nil => intro s; rfl
  | cons e es ih =>
    intro s
    cases e with
    | setName n =>
      show (run (step s (.setName n)) es).allEvalSettings
        = ((resolvedWrites (step s (.setName n)) es).getLast?).getD
            s.allEvalSettings
      rw [ih, step_setName_allEvalSettings]
    | reject i =>
      show (run (step s (.reject i)) es).allEvalSettings
        = ((resolvedWrites (step s (.reject i)) es).getLast?).getD
            s.allEvalSettings
      rw [ih, step_reject_allEvalSettings]
    | resolve i d =>
      by_cases h : i ∈ s.pending
      · have hrw : resolvedWrites s (Event.resolve i d :: es)
            = d :: resolvedWrites (step s (.resolve i d)) es := by
          show (if i ∈ s.pending then [d] else [])
              ++ resolvedWrites (step s (.resolve i d)) es = _
          rw [if_pos h]
          rfl
        have hs : (step s (.resolve i d)).allEvalSettings = d := by
          simp [step, h]
        show (run (step s (.resolve i d)) es).allEvalSettings = _
        rw [ih, hs, hrw, getD_getLast?_cons]
      · have hstep : step s (.resolve i d) = s := by
          simp [step, h]
        have hrun : run s (Event.resolve i d :: es) = run s es := by
          show run (step s (.resolve i d)) es = run s es
          rw [hstep]
        have hrw : resolvedWrites s (Event.resolve i d :: es)
            = resolvedWrites s es := by
          show (if i ∈ s.pending then [d] else [])
              ++ resolvedWrites (step s (.resolve i d)) es = _
          rw [if_neg h, hstep]
          rfl
        rw [hrun, hrw, ih]

/-- A trace with no resolving fetch writes nothing to the view state. -/
lemma resolvedWrites_eq_nil :
    ∀ (tr : List Event), (∀ e ∈ tr, e.isResolve = false) →
      ∀ s : ComponentState, resolvedWrites s tr = []
  | [], _, _ => rfl
  | e :: es, h, s => by
    cases e with
    | resolve i d =>
      have := h _ (List.mem_cons_self _ _)
      simp [Event.isResolve] at this
    | setName n =>
      show ([] : List JSVal) ++ resolvedWrites (step s (.setName n)) es = []
      rw [List.nil_append]
      exact resolvedWrites_eq_nil es
        (fun e he => h e (List.mem_cons_of_mem _ he)) _
    | reject i =>
      show ([] : List JSVal) ++ resolvedWrites (step s (.reject i)) es = []
      rw [List.nil_append]
      exact resolvedWrites_eq_nil es
        (fun e he => h e (List.mem_cons_of_mem _ he)) _

/-- C1: along any trace from mount in which no fetch resolves (every
fetch rejects or stays in flight), the stored list never leaves its
initial empty state, and the component renders the page with an empty
grid — a `Rendered` value carrying no error indicator of any kind. -/
theorem fetch_failure_unobserved (backendUrl name : String)
    (tr : List Event) (h : ∀ e ∈ tr, e.isResolve = false) :
    (run (mount backendUrl name) tr).allEvalSettings = JSVal.arr []
    ∧ renderState (run (mount backendUrl name) tr)
        = Rendered.page (run (mount backendUrl name) tr).name "Evaluations"
            (dataGridProps []) := by
  have h1 : (run (mount backendUrl name) tr).allEvalSettings
      = JSVal.arr [] := by
    rw [run_allEvalSettings, resolvedWrites_eq_nil tr h]
    rfl
  refine ⟨h1, ?_⟩
  show ModelDetailsPage (run (mount backendUrl name) tr).name
      (run (mount backendUrl name) tr).allEvalSettings = _
  rw [h1]
  rfl

/-- C1 witness: mounting and then seeing the sole fetch reject leaves
the view state empty and renders the empty grid. -/
theorem fetch_failure_unobserved_witness :
    (run (mount "http://api" "resnet50") [Event.reject 0]).allEvalSettings
        = JSVal.arr []
    ∧ renderState (run (mount "http://api" "resnet50") [Event.reject 0])
        = Rendered.page
            (run (mount "http://api" "resnet50") [Event.reject 0]).name
            "Evaluations" (dataGridProps []) :=
  fetch_failure_unobserved "http://api" "resnet50" [Event.reject 0]
    (by decide)

/-- C2: at every point in the component's lifetime, the stored list is
either the initial empty array or exactly the response body written by
the most recent successfully resolved fetch, wholesale. -/
theorem view_state_empty_or_last_resolve (backendUrl name : String)
    (tr : List Event) :
    (run (mount backendUrl name) tr).allEvalSettings
      = ((resolvedWrites (mount backendUrl name) tr).getLast?).getD
          (JSVal.arr []) :=
  run_allEvalSettings tr (mount backendUrl name)

/-- For a fixed backend base URL, distinct model identifiers yield
distinct fetch URLs. -/
lemma mkUrl_inj (b n1 n2 : String) (h : mkUrl b n1 = mkUrl b n2) :
    n1 = n2 := by
  unfold mkUrl at h
  have hd := congrArg String.data h
  rw [String.data_append, String.data_append, String.data_append,
    String.data_append, String.data_append, String.data_append] at hd
  exact String.ext
    (List.append_cancel_left (List.append_cancel_right hd))

/-- C3: mounting issues exactly one request, and a route change to a new
identifier (in any state whose last effect run matches the current
name's URL, as every reachable state does) appends exactly one request;
in both cases the request is a GET to
`{backend base URL}/models/{identifier}/evaluation-settings` with no
body and no query parameters. -/
theorem one_get_per_identifier_change (backendUrl name : String)
    (s : ComponentState) (n' : String)
    (hinv : s.lastEffectUrl = some (mkUrl s.backendUrl s.name))
    (hne : n' ≠ s.name) :
    (mount backendUrl name).requests
        = [{ method := "GET",
             url := backendUrl ++ "/models/" ++ name
               ++ "/evaluation-settings",
             body := none, queryParams := [] }]
    ∧ (step s (.setName n')).requests
        = s.requests
          ++ [{ method := "GET",
                url := s.backendUrl ++ "/models/" ++ n'
                  ++ "/evaluation-settings",
                body := none, queryParams := [] }] := by
  constructor
  · rfl
  · have hne2 : ¬ (s.lastEffectUrl = some (mkUrl s.backendUrl n')) := by
      rw [hinv]
      intro hc
      exact hne (mkUrl_inj _ _ _ (Option.some.inj hc)).symm
    simp only [step]
    rw [if_neg hne2]
    rfl

/-- C3 witness: mounting at identifier "resnet50" issues the single
expected GET, and changing the identifier to "other" appends exactly
one more. -/
theorem one_get_per_identifier_change_witness :
    (mount "http://api" "resnet50").requests
        = [{ method := "GET",
             url := "http://api" ++ "/models/" ++ "resnet50"
               ++ "/evaluation-settings",
             body := none, queryParams := [] }]
    ∧ (step (mount "http://api" "resnet50")
          (.setName "other")).requests
        = (mount "http://api" "resnet50").requests
          ++ [{ method := "GET",
                url := "http://api" ++ "/models/" ++ "other"
                  ++ "/evaluation-settings",
                body := none, queryParams := [] }] :=
  one_get_per_identifier_change "http://api" "resnet50"
    (mount "http://api" "resnet50") "other" rfl (by decide)

/-- C8: a route change cancels nothing — the in-flight set is preserved
(possibly extended by the newly issued request) — every in-flight
fetch's resolution writes its body to the view state, and when two
fetches are in flight the one resolving last determines the stored
list, regardless of which identifier either was issued for. -/
theorem stale_fetch_race (s : ComponentState) (n' : String)
    (i j : Nat) (d d' : JSVal)
    (hi : i ∈ s.pending) (hj : j ∈ s.pending) (hij : j ≠ i) :
    ((step s (.setName n')).pending = s.pending
      ∨ (step s (.setName n')).pending
          = s.pending ++ [s.requests.length])
    ∧ (step s (.resolve i d)).allEvalSettings = d
    ∧ (run s [Event.resolve i d, Event.resolve j d']).allEvalSettings
        = d' := by
  refine ⟨?_, ?_, ?_⟩
  · simp only [step]
    split
    · exact Or.inl rfl
    · exact Or.inr rfl
  · simp [step, hi]
  · have h1 : step s (.resolve i d)
        = { s with allEvalSettings := d, pending := s.pending.erase i } := by
      simp [step, hi]
    have hj2 : j ∈ s.pending.erase i := (List.mem_erase_of_ne hij).mpr hj
    show (step (step s (.resolve i d)) (.resolve j d')).allEvalSettings = d'
    rw [h1]
    simp [step, hj2]

/-- C8 witness: after mounting at "m" and changing the identifier to
"m2", both fetches are in flight; a further route change keeps them in
flight, resolving the first writes its body, and resolving both in
order leaves the body of the last to resolve in the view state. -/
theorem stale_fetch_race_witness :
    ((step (step (mount "http://api" "m") (Event.setName "m2"))
          (Event.setName "m3")).pending
        = (step (mount "http://api" "m") (Event.setName "m2")).pending
      ∨ (step (step (mount "http://api" "m") (Event.setName "m2"))
            (Event.setName "m3")).pending
          = (step (mount "http://api" "m") (Event.setName "m2")).pending
            ++ [(step (mount "http://api" "m")
                  (Event.setName "m2")).requests.length])
    ∧ (step (step (mount "http://api" "m") (Event.setName "m2"))
          (Event.resolve 0 JSVal.null)).allEvalSettings = JSVal.null
    ∧ (run (step (mount "http://api" "m") (Event.setName "m2"))
          [Event.resolve 0 JSVal.null,
           Event.resolve 1 (JSVal.arr [])]).allEvalSettings
        = JSVal.arr [] :=
  stale_fetch_race (step (mount "http://api" "m") (Event.setName "m2"))
    "m3" 0 1 JSVal.null (JSVal.arr []) (by decide) (by decide) (by decide)
